import Mathlib

/-!
Verification of the task-graph supervisor in `main.go` of the kit repository.

The file shallowly embeds the parts of the program the claims are about:
the status table, the downstream-release step `maybeStartDownstream`, the
termination predicates, the runner goroutine's gate acquisition, preempt
step and run loop, the watch goroutine's debounce logic, and the final
error scan. Types and helpers that live in the repository's `internal`
packages (not part of the provided sources) are modelled from the spec and
marked as such in their doc comments.
-/

set_option autoImplicit false

namespace Kit

/-- Modelled from the spec: `restartPolicy ∈ {Always, OnFailure, Never}` as
declared in the missing `internal/types` package. -/
inductive RestartPolicy where
  | always
  | onFailure
  | never
deriving DecidableEq, Repr

/-- Modelled from the spec: `type ∈ {Job, Service}` as declared in the missing
`internal/types` package. -/
inductive TaskType where
  | job
  | service
deriving DecidableEq, Repr

/-- Modelled from the spec: the `Task` entity of the missing `internal/types`
package, restricted to the fields `main.go` reads. `skipResult` is an oracle
for the filesystem-dependent `Skip()` method (all declared output targets
exist and are newer than any declared inputs); `readinessProbe` records
whether `GetReadinessProbe()` returns a probe. -/
structure Task where
  name : String
  dependencies : List String
  watch : List String
  mutex : String
  semaphore : String
  restartPolicy : RestartPolicy
  taskType : TaskType
  readinessProbe : Bool
  skipResult : Bool
deriving DecidableEq, Repr

/-- Modelled from the spec: `GetRestartPolicy()` of the missing
`internal/types` package, returning the policy string `main.go` compares
against `"Never"` and `"Always"`. -/
def Task.GetRestartPolicy (t : Task) : String :=
  match t.restartPolicy with
  | RestartPolicy.always => "Always"
  | RestartPolicy.onFailure => "OnFailure"
  | RestartPolicy.never => "Never"

/-- Modelled from the spec: a background task is one that is not expected to
terminate — `type=Service` or `restartPolicy=Always` (`IsBackground()` of the
missing `internal/types` package). -/
def Task.IsBackground (t : Task) : Bool :=
  t.taskType == TaskType.service || t.restartPolicy == RestartPolicy.always

/-- Modelled from the spec: a restart-target (`IsRestart()` of the missing
`internal/types` package) is a task that restarts even after a clean exit,
i.e. `restartPolicy=Always`. -/
def Task.IsRestart (t : Task) : Bool :=
  t.restartPolicy == RestartPolicy.always

/-- Modelled from the spec: `Skip()` of the missing `internal/types` package —
true when all declared output targets exist and are newer than any declared
inputs. The filesystem check is abstracted by the `skipResult` oracle field. -/
def Task.Skip (t : Task) : Bool :=
  t.skipResult

/-- Modelled from the spec: the `backoff` value object of the missing backoff
source file — `{duration, cap}` with successor `duration' = min(duration*2, cap)`.
Durations are in seconds. -/
structure backoff where
  Duration : Nat
  cap : Nat
deriving DecidableEq, Repr

/-- Modelled from the spec: `defaultBackoff = {duration=1s, cap=60s}`. -/
def defaultBackoff : backoff :=
  backoff.mk 1 60

/-- Modelled from the spec: `next()` returns a new backoff with
`duration = min(2*duration, cap)`. -/
def backoff.next (b : backoff) : backoff :=
  backoff.mk (min (2 * b.Duration) b.cap) b.cap

/-- `taskStatus` from `main.go`: the mutable status record of one task. -/
structure taskStatus where
  reason : String
  backoff : backoff
deriving DecidableEq, Repr

/-- The effective task graph: the task list `pod.Spec.Tasks.NeededFor(args)`. -/
abbrev Tasks := List Task

/-- The `statuses` sync.Map of `main.go`, embedded as an association list from
task name to status record. -/
abbrev StatusMap := List (String × taskStatus)

/-- Status-table initialization of `main.go`: one `{waiting, defaultBackoff}`
record stored per task of the effective graph. -/
def initStatuses (tasks : Tasks) : StatusMap :=
  tasks.map (fun task => (task.name, taskStatus.mk "waiting" defaultBackoff))

/-- Modelled from the spec: `GetDownstream(name)` of the missing
`internal/types` package — the tasks whose `dependencies` include `name`. -/
def Tasks.GetDownstream (tasks : Tasks) (name : String) : List Task :=
  tasks.filter (fun d => d.dependencies.contains name)

/-- Modelled from the spec: `GetLeaves()` of the missing `internal/types`
package — the tasks with no in-graph dependencies. -/
def Tasks.GetLeaves (tasks : Tasks) : List Task :=
  tasks.filter (fun t => t.dependencies.all (fun d => !(tasks.any (fun u => u.name == d))))

/-- Modelled from the spec: `Get(name)` of the missing `internal/types`
package — direct lookup by task name. -/
def Tasks.Get (tasks : Tasks) (name : String) : Option Task :=
  tasks.find? (fun t => t.name == name)

/-- Modelled from the spec: `All(pred)` of the missing `internal/types`
package — universal quantifier over the graph. -/
def Tasks.All (tasks : Tasks) (pred : Task → Bool) : Bool :=
  tasks.all pred

/-- Modelled from the spec: `Any(pred)` of the missing `internal/types`
package — existential quantifier over the graph. -/
def Tasks.Any (tasks : Tasks) (pred : Task → Bool) : Bool :=
  tasks.any pred

/-- The upstream test inside `maybeStartDownstream` (main.go:223-231): the
status record of `upstream` exists and its reason is `"success"`, or is
`"running"` while `tasks.Get(upstream)` is a background task; a missing
record makes the downstream unfulfilled. -/
def upstreamFulfilled (tasks : Tasks) (statuses : StatusMap) (upstream : String) : Bool :=
  match statuses.lookup upstream with
  | some status =>
      status.reason == "success" ||
        (status.reason == "running" &&
          (match Tasks.Get tasks upstream with
           | some u => u.IsBackground
           | none => false))
  | none => false

/-- The fulfilled test of `maybeStartDownstream` (main.go:222-231): the Go
loop folds `fulfilled && ...` over the dependencies, which is `List.all`. -/
def downstreamFulfilled (tasks : Tasks) (statuses : StatusMap) (d : Task) : Bool :=
  d.dependencies.all (upstreamFulfilled tasks statuses)

/-- `maybeStartDownstream` (main.go:217-237), returning the list of tasks sent
to the work channel. The `select` with a `default` branch runs the body only
when `ctx.Done()` is not ready, i.e. when the root context is not cancelled. -/
def maybeStartDownstream (tasks : Tasks) (statuses : StatusMap)
    (rootCancelled : Bool) (name : String) : List Task :=
  if rootCancelled then []
  else (Tasks.GetDownstream tasks name).filter (downstreamFulfilled tasks statuses)

theorem upstreamFulfilled_iff (tasks : Tasks) (statuses : StatusMap) (u : String) :
    upstreamFulfilled tasks statuses u = true ↔
      ∃ st, statuses.lookup u = some st ∧
        (st.reason = "success" ∨
          (st.reason = "running" ∧
            ∃ ut, Tasks.Get tasks u = some ut ∧ ut.IsBackground = true)) := by
  unfold upstreamFulfilled
  cases hl : statuses.lookup u with
  | none => simp
  | some st =>
    cases hg : Tasks.Get tasks u with
    | none =>
      simp only [hg, Bool.or_eq_true, Bool.and_eq_true, beq_iff_eq, Option.some.injEq]
      constructor
      · rintro (h | ⟨h, h2⟩)
        · exact ⟨st, rfl, Or.inl h⟩
        · cases h2
      · rintro ⟨st2, hst2, h | ⟨h, ut, hut, _⟩⟩
        · cases hst2; exact Or.inl h
        · cases hut
    | some u0 =>
      simp only [hg, Bool.or_eq_true, Bool.and_eq_true, beq_iff_eq, Option.some.injEq]
      constructor
      · rintro (h | ⟨h, h2⟩)
        · exact ⟨st, rfl, Or.inl h⟩
        · exact ⟨st, rfl, Or.inr ⟨h, u0, rfl, h2⟩⟩
      · rintro ⟨st2, hst2, h | ⟨h, ut, hut, hbg⟩⟩
        · cases hst2; exact Or.inl h
        · cases hst2; cases hut; exact Or.inr ⟨h, hbg⟩

/-- C1: for every task `d` in `downstream(name)`, the downstream-release step
enqueues `d` on the work channel iff every upstream `u` of `d.dependencies`
has a status record whose reason is `success`, or whose reason is `running`
while `u` is a background task; an upstream with no status record blocks the
enqueue. -/
theorem maybeStartDownstream_enqueues_iff (tasks : Tasks) (statuses : StatusMap)
    (name : String) (d : Task) (hd : d ∈ Tasks.GetDownstream tasks name) :
    d ∈ maybeStartDownstream tasks statuses false name ↔
      ∀ u ∈ d.dependencies, ∃ st, statuses.lookup u = some st ∧
        (st.reason = "success" ∨
          (st.reason = "running" ∧
            ∃ ut, Tasks.Get tasks u = some ut ∧ ut.IsBackground = true)) := by
  unfold maybeStartDownstream
  simp only [if_neg (by simp : ¬ (false = true)), List.mem_filter]
  constructor
  · rintro ⟨-, hall⟩ u hu
    have := (List.all_eq_true.mp hall) u hu
    exact (upstreamFulfilled_iff tasks statuses u).mp this
  · intro h
    refine ⟨hd, List.all_eq_true.mpr ?_⟩
    intro u hu
    exact (upstreamFulfilled_iff tasks statuses u).mpr (h u hu)

/-- C9: after the root context is cancelled, `ctx.Done()` is ready, so the
`select` in `maybeStartDownstream` never takes its `default` branch: the step
enqueues nothing, for every task name and every status-table state. -/
theorem maybeStartDownstream_cancelled_noop (tasks : Tasks) (statuses : StatusMap)
    (name : String) :
    maybeStartDownstream tasks statuses true name = [] :=
  rfl

/-- The `allComplete` predicate of the termination goroutine (main.go:243-249):
`tasks.All` of "has a status record, is not background, and its reason is
success or error". -/
def allComplete (tasks : Tasks) (statuses : StatusMap) : Bool :=
  Tasks.All tasks (fun task =>
    match statuses.lookup task.name with
    | some status => !task.IsBackground && (status.reason == "success" || status.reason == "error")
    | none => false)

/-- The `anyError` predicate of the termination goroutine (main.go:251-258):
some task has a status record, `restartPolicy=Never` and reason `error`. -/
def anyError (tasks : Tasks) (statuses : StatusMap) : Bool :=
  Tasks.Any tasks (fun task =>
    match statuses.lookup task.name with
    | some status => task.GetRestartPolicy == "Never" && status.reason == "error"
    | none => false)

/-- The once-per-second termination check (main.go:259-261): the root token is
tripped via `stopEverything()` when `allComplete || anyError` holds. -/
def terminationTrip (tasks : Tasks) (statuses : StatusMap) : Bool :=
  allComplete tasks statuses || anyError tasks statuses

/-- The `finalScan` over tasks after all runners complete (main.go:472-476):
the first task with a status record in reason `error` and
`restartPolicy=Never` yields the composite failure. -/
def finalScan (tasks : Tasks) (statuses : StatusMap) : Option String :=
  match tasks.find? (fun task =>
    match statuses.lookup task.name with
    | some status => status.reason == "error" && task.GetRestartPolicy == "Never"
    | none => false) with
  | some task => some (task.name ++ " errored")
  | none => none

/-- The process exit status (main.go:480-483): 1 when the run returned an
error, 0 otherwise. -/
def exitCode (e : Option String) : Nat :=
  match e with
  | some _ => 1
  | none => 0

theorem finalScan_pred_iff (statuses : StatusMap) (task : Task) :
    (match statuses.lookup task.name with
      | some status => status.reason == "error" && task.GetRestartPolicy == "Never"
      | none => false) = true ↔
      ∃ st, statuses.lookup task.name = some st ∧
        st.reason = "error" ∧ task.GetRestartPolicy = "Never" := by
  cases hl : statuses.lookup task.name with
  | none =>
    constructor
    · intro h; cases h
    · rintro ⟨st, hst, -⟩; cases hst
  | some st =>
    simp only [Bool.and_eq_true, beq_iff_eq, Option.some.injEq]
    constructor
    · rintro ⟨h1, h2⟩; exact ⟨st, rfl, h1, h2⟩
    · rintro ⟨st2, hst2, h1, h2⟩; cases hst2; exact ⟨h1, h2⟩

/-- C6: the run returns a failure — and the process exits nonzero — iff some
task of the graph has a status record with reason `error` and
`restartPolicy=Never` after all runners complete. -/
theorem finalScan_iff (tasks : Tasks) (statuses : StatusMap) :
    exitCode (finalScan tasks statuses) ≠ 0 ↔
      ∃ t ∈ tasks, ∃ st, statuses.lookup t.name = some st ∧
        st.reason = "error" ∧ t.GetRestartPolicy = "Never" := by
  unfold finalScan exitCode
  cases hf : tasks.find? (fun task =>
    match statuses.lookup task.name with
    | some status => status.reason == "error" && task.GetRestartPolicy == "Never"
    | none => false) with
  | none =>
    constructor
    · intro h; exact absurd rfl h
    · rintro ⟨t, ht, st, hst, herr, hnev⟩
      have hnp := List.find?_eq_none.mp hf t ht
      exact absurd ((finalScan_pred_iff statuses t).mpr ⟨st, hst, herr, hnev⟩) hnp
  | some task =>
    have hmem : task ∈ tasks := List.mem_of_find?_eq_some hf
    have hp := List.find?_some hf
    constructor
    · intro h
      obtain ⟨st, hst, herr, hnev⟩ := (finalScan_pred_iff statuses task).mp hp
      exact ⟨task, hmem, st, hst, herr, hnev⟩
    · intro h
      exact Nat.one_ne_zero

theorem allComplete_pred_iff (statuses : StatusMap) (task : Task) :
    (match statuses.lookup task.name with
      | some status => !task.IsBackground && (status.reason == "success" || status.reason == "error")
      | none => false) = true ↔
      ∃ st, statuses.lookup task.name = some st ∧
        task.IsBackground = false ∧ (st.reason = "success" ∨ st.reason = "error") := by
  cases hl : statuses.lookup task.name with
  | none =>
    constructor
    · intro h; cases h
    · rintro ⟨st, hst, -⟩; cases hst
  | some st =>
    simp only [Bool.and_eq_true, Bool.not_eq_true', Bool.or_eq_true, beq_iff_eq,
      Option.some.injEq]
    constructor
    · rintro ⟨h1, h2⟩; exact ⟨st, rfl, h1, h2⟩
    · rintro ⟨st2, hst2, h1, h2⟩; cases hst2; exact ⟨h1, h2⟩

/-- C2 (amended): the once-per-second check trips the root token when
`allComplete || anyError` holds, and `allComplete` holds iff every task of the
graph — background tasks included — has a status record, is non-background,
and has reason `success` or `error`; consequently a graph containing a
background task never satisfies `allComplete`. -/
theorem allComplete_characterization (tasks : Tasks) (statuses : StatusMap) :
    terminationTrip tasks statuses = (allComplete tasks statuses || anyError tasks statuses) ∧
    (allComplete tasks statuses = true ↔
      ∀ t ∈ tasks, ∃ st, statuses.lookup t.name = some st ∧
        t.IsBackground = false ∧ (st.reason = "success" ∨ st.reason = "error")) ∧
    (∀ t ∈ tasks, t.IsBackground = true → allComplete tasks statuses = false) := by
  have hiff : allComplete tasks statuses = true ↔
      ∀ t ∈ tasks, ∃ st, statuses.lookup t.name = some st ∧
        t.IsBackground = false ∧ (st.reason = "success" ∨ st.reason = "error") := by
    unfold allComplete Tasks.All
    rw [List.all_eq_true]
    constructor
    · intro h t ht
      exact (allComplete_pred_iff statuses t).mp (h t ht)
    · intro h t ht
      exact (allComplete_pred_iff statuses t).mpr (h t ht)
  refine ⟨rfl, hiff, ?_⟩
  intro t ht hbg
  cases hac : allComplete tasks statuses with
  | false => rfl
  | true =>
    obtain ⟨st, -, hnb, -⟩ := (hiff.mp hac) t ht
    rw [hbg] at hnb
    cases hnb

/-- Example service task: background (type=Service, restartPolicy=Always). -/
def exSvc : Task :=
  Task.mk "api" [] [] "" "" RestartPolicy.always TaskType.service true false

/-- Example job task: non-background, restartPolicy=Never. -/
def exJob : Task :=
  Task.mk "build" [] [] "" "" RestartPolicy.never TaskType.job false false

/-- Example graph with one background task and one job. -/
def exGraphC2 : Tasks := [exSvc, exJob]

/-- Example status table: the service is running, the job succeeded; every
non-background task of `exGraphC2` has reached success or error. -/
def exStatusesC2 : StatusMap :=
  [("api", taskStatus.mk "running" defaultBackoff),
   ("build", taskStatus.mk "success" defaultBackoff)]

/-- C2 counterexample: in a graph containing a background task whose
non-background tasks have all reached success or error, `allComplete` is
false and the termination check does not trip the root token — contrary to
the claim that `allComplete` holds there. -/
theorem allComplete_background_counterexample :
    exSvc ∈ exGraphC2 ∧ exSvc.IsBackground = true ∧
    Tasks.All exGraphC2 (fun t =>
      t.IsBackground ||
        (match exStatusesC2.lookup t.name with
         | some st => st.reason == "success" || st.reason == "error"
         | none => false)) = true ∧
    allComplete exGraphC2 exStatusesC2 = false ∧
    terminationTrip exGraphC2 exStatusesC2 = false := by
  refine ⟨by decide, by decide, by decide, by decide, by decide⟩

/-- Closed instance of the amended C2 theorem: the concrete background graph
never satisfies `allComplete`. -/
theorem allComplete_characterization_witness :
    allComplete exGraphC2 exStatusesC2 = false :=
  (allComplete_characterization exGraphC2 exStatusesC2).2.2 exSvc (by decide) (by decide)

/-- Outcome of the gate-acquisition phase of the runner goroutine. -/
inductive GateOutcome where
  | proceed
  | exitEarly
deriving DecidableEq, Repr

/-- Modelled from the spec: acquiring a named mutex (`util.GetMutex(m)` then
`sync.Mutex.Lock()`, main.go:354-360). `Lock()` takes no cancellation token
and returns no error: it blocks until the lock is free and then always
acquires, whether or not the root token was tripped while waiting. -/
def mutexAcquire (_mustWait _rootCancelled : Bool) : Bool :=
  true

/-- Modelled from the spec: acquiring one semaphore permit
(`semaphore.Acquire(ctx, 1)`, main.go:362-370) — if the root token is tripped
while waiting, the acquisition returns an error. -/
def semaphoreAcquire (mustWait rootCancelled : Bool) : Bool :=
  !(mustWait && rootCancelled)

/-- The gate-acquisition phase of the runner goroutine (main.go:354-370): a
declared mutex is locked unconditionally (no exit path); a declared semaphore
is acquired, and on acquisition error the runner returns before starting the
child process. -/
def gateStep (t : Task) (mustWait rootCancelled : Bool) : GateOutcome :=
  if t.semaphore ≠ "" && !(semaphoreAcquire mustWait rootCancelled) then GateOutcome.exitEarly
  else GateOutcome.proceed

/-- Example task declaring only a mutex label. -/
def exMutexTask : Task :=
  Task.mk "compile" [] [] "m" "" RestartPolicy.onFailure TaskType.job false false

/-- Example task declaring only a semaphore label. -/
def exSemTask : Task :=
  Task.mk "upload" [] [] "" "s" RestartPolicy.onFailure TaskType.job false false

/-- C4 counterexample: for a task declaring a mutex label, tripping the root
token while the runner is waiting on the gate does not make acquisition fail —
the runner proceeds past the gate instead of exiting, because
`sync.Mutex.Lock()` takes no token. -/
theorem gateStep_mutex_counterexample :
    (exMutexTask.mutex ≠ "" ∨ exMutexTask.semaphore ≠ "") ∧
    gateStep exMutexTask true true ≠ GateOutcome.exitEarly := by
  refine ⟨Or.inl (by decide), by decide⟩

/-- C4 (amended): semaphore acquisition alone is cancellable — for every task
declaring a semaphore label, if the root token is tripped while the runner
waits on the gate, acquisition fails and the runner exits before starting the
child process; mutex acquisition ignores the root token. -/
theorem gateStep_semaphore_cancellable (t : Task) (h : t.semaphore ≠ "") :
    gateStep t true true = GateOutcome.exitEarly ∧
    mutexAcquire true true = true := by
  unfold gateStep semaphoreAcquire
  rw [if_pos]
  · exact ⟨rfl, rfl⟩
  · simp [h]

/-- Closed instance of the amended C4 theorem at the example semaphore task. -/
theorem gateStep_semaphore_cancellable_witness :
    gateStep exSemTask true true = GateOutcome.exitEarly ∧
    mutexAcquire true true = true :=
  gateStep_semaphore_cancellable exSemTask (by decide)

/-- One step of the runner goroutine's prologue (main.go:347-376), before the
run loop is entered. -/
inductive RunnerStep where
  | cancelPrior
  | waitForPrior
  | registerStop
  | lockMutex
  | acquireSemaphore
  | bindShutdown
deriving DecidableEq, Repr

/-- The runner goroutine's prologue (main.go:347-376) as the sequence of steps
it performs: cancel a registered prior run (`stop.Load(name)` then calling the
stored cancel function), register its own cancel handle (`stop.Store`), lock
the mutex if declared, acquire the semaphore if declared, and bind root
cancellation to the per-process token. There is no step that waits for the
prior run to release. -/
def runnerPrologue (t : Task) (priorRegistered : Bool) : List RunnerStep :=
  (if priorRegistered then [RunnerStep.cancelPrior] else []) ++
  [RunnerStep.registerStop] ++
  (if t.mutex ≠ "" then [RunnerStep.lockMutex] else []) ++
  (if t.semaphore ≠ "" then [RunnerStep.acquireSemaphore] else []) ++
  [RunnerStep.bindShutdown]

/-- C7 counterexample: dispatching a task with a registered prior run, the
runner cancels the prior run's token but its step sequence contains no wait
for the prior run to release before gate acquisition — here at a concrete
mutex-gated task the prologue is exactly cancel, register, lock, bind. -/
theorem runnerPrologue_counterexample :
    runnerPrologue exMutexTask true =
      [RunnerStep.cancelPrior, RunnerStep.registerStop, RunnerStep.lockMutex,
       RunnerStep.bindShutdown] ∧
    (runnerPrologue exMutexTask true).contains RunnerStep.waitForPrior = false := by
  refine ⟨by decide, by decide⟩

/-- C7 (amended): when a prior run is registered under the task name, the new
runner cancels the prior run's per-process token and proceeds directly to
registering its own handle and acquiring gates, without waiting for the prior
run to release. -/
theorem runnerPrologue_cancels_without_wait (t : Task) :
    (runnerPrologue t true).contains RunnerStep.cancelPrior = true ∧
    (runnerPrologue t true).contains RunnerStep.waitForPrior = false ∧
    (runnerPrologue t true).head? = some RunnerStep.cancelPrior := by
  unfold runnerPrologue
  by_cases hm : t.mutex = "" <;> by_cases hs : t.semaphore = "" <;>
    simp [hm, hs]

/-- The abstracted result of the per-run closure (main.go:392-441): the child
run returned cleanly, returned a non-cancellation error (process failure, busy
port, reset failure), or returned `context.Canceled`. -/
inductive RunResult where
  | ok
  | failed
  | canceled
deriving DecidableEq, Repr

/-- How one iteration of the runner's `for`/`select` loop ends: `exited` for a
Go `return` out of the goroutine; `continuedToTail` when control falls through
to the loop tail (main.go:462-465, the backoff sleep) and the loop iterates
again. -/
inductive LoopOutcome where
  | exited
  | continuedToTail
deriving DecidableEq, Repr

/-- Result of one iteration of the runner's run loop: the status record after
the iteration, whether `maybeStartDownstream` was invoked, and how the
iteration ended. -/
structure IterResult where
  status : taskStatus
  released : Bool
  outcome : LoopOutcome
deriving DecidableEq, Repr

/-- One iteration of the runner goroutine's run loop (main.go:378-466).
`processCancelled` is whether `processCtx.Done()` is ready at the `select`;
`runResult` abstracts what the per-run closure returned. In the skip branch
the Go `break` statement terminates the enclosing `select`, not the `for`
loop, so control falls through to the loop tail. In the `canceled` branch the
status reason is whatever the run left it at (`starting`, or `running` when no
readiness probe is declared; concurrent probe callbacks are not modelled). -/
def runLoopIter (t : Task) (processCancelled : Bool) (runResult : RunResult)
    (st : taskStatus) : IterResult :=
  if processCancelled then IterResult.mk st false LoopOutcome.exited
  else if t.Skip then
    IterResult.mk (taskStatus.mk "success" st.backoff) true LoopOutcome.continuedToTail
  else
    let preReason := if t.readinessProbe then "starting" else "running"
    match runResult with
    | RunResult.canceled =>
        IterResult.mk (taskStatus.mk preReason st.backoff) false LoopOutcome.exited
    | RunResult.failed =>
        let st2 := taskStatus.mk "error" st.backoff.next
        if t.GetRestartPolicy == "Never" then IterResult.mk st2 false LoopOutcome.exited
        else IterResult.mk st2 false LoopOutcome.continuedToTail
    | RunResult.ok =>
        let st2 := taskStatus.mk "success" defaultBackoff
        if !t.IsRestart then IterResult.mk st2 true LoopOutcome.exited
        else if t.GetRestartPolicy == "Never" then IterResult.mk st2 true LoopOutcome.exited
        else IterResult.mk st2 true LoopOutcome.continuedToTail

/-- Example task whose `Skip()` returns true (declared targets exist and are
fresh). -/
def exSkipTask : Task :=
  Task.mk "codegen" [] [] "" "" RestartPolicy.never TaskType.job false true

/-- C3: evaluating the skip branch at a concrete task whose `Skip()` is true —
the runner sets reason `success` and releases downstream without starting the
child process, but the iteration ends in `continuedToTail`, not `exited`: the
Go `break` leaves only the `select` statement, so the loop proceeds to the
backoff sleep and iterates again, contrary to the claim that the runner exits
the loop with no further iteration. -/
theorem runLoopIter_skip_eval :
    runLoopIter exSkipTask false RunResult.ok (taskStatus.mk "waiting" defaultBackoff) =
      IterResult.mk (taskStatus.mk "success" defaultBackoff) true
        LoopOutcome.continuedToTail ∧
    LoopOutcome.continuedToTail ≠ LoopOutcome.exited := by
  refine ⟨by decide, by decide⟩

/-- C5: for a task whose child-process run returns without error, the runner
sets reason `success`, resets the backoff to `defaultBackoff`, invokes
downstream release, and, if the task is not a restart target, exits the
runner goroutine. -/
theorem runLoopIter_clean_run (t : Task) (st : taskStatus) (hskip : t.Skip = false) :
    (runLoopIter t false RunResult.ok st).status.reason = "success" ∧
    (runLoopIter t false RunResult.ok st).status.backoff = defaultBackoff ∧
    (runLoopIter t false RunResult.ok st).released = true ∧
    (t.IsRestart = false → (runLoopIter t false RunResult.ok st).outcome = LoopOutcome.exited) := by
  unfold runLoopIter
  by_cases hr : t.IsRestart = true <;>
  by_cases hn : (t.GetRestartPolicy == "Never") = true <;>
    simp [hskip, hr, hn]

/-- Closed instance of C5 at a concrete non-restart task with a clean run. -/
theorem runLoopIter_clean_run_witness :
    (runLoopIter exJob false RunResult.ok (taskStatus.mk "waiting" (backoff.mk 4 60))).status.reason = "success" ∧
    (runLoopIter exJob false RunResult.ok (taskStatus.mk "waiting" (backoff.mk 4 60))).status.backoff = defaultBackoff ∧
    (runLoopIter exJob false RunResult.ok (taskStatus.mk "waiting" (backoff.mk 4 60))).released = true ∧
    (exJob.IsRestart = false →
      (runLoopIter exJob false RunResult.ok (taskStatus.mk "waiting" (backoff.mk 4 60))).outcome = LoopOutcome.exited) :=
  runLoopIter_clean_run exJob (taskStatus.mk "waiting" (backoff.mk 4 60)) (by decide)

/-- The fsnotify op bitmask value of `Chmod` (Create=1, Write=2, Remove=4,
Rename=8, Chmod=16); the watch goroutine compares the whole bitmask against
it. -/
def chmodOp : Nat := 16

/-- `time.Second` in nanoseconds, the debounce interval of `timer.Reset`
(main.go:332). -/
def timeSecond : Nat := 1000000000

/-- The never-expiring initial arming of the re-run timer (main.go:319):
`100*365*24` hours in nanoseconds. -/
def watchTimerInit : Nat := 100 * 365 * 24 * 60 * 60 * 1000000000

/-- Event handling of the watch goroutine (main.go:328-333): an event whose op
is not exactly `Chmod` resets the single re-run timer to one second; a
chmod-only event leaves the timer unchanged. -/
def handleWatchEvent (op : Nat) (timer : Nat) : Nat :=
  if op != chmodOp then timeSecond else timer

/-- The re-run timer's callback (main.go:319-321): the watched task is sent on
the work channel. -/
def watchTimerFire (t : Task) : List Task := [t]

/-- C8: for a watched task, each filesystem event other than a chmod-only
change resets the single re-run timer to one second; chmod-only events never
reset it; and when the timer fires the watched task is enqueued on the work
channel. -/
theorem handleWatchEvent_debounce (t : Task) (op timer : Nat) :
    (op ≠ chmodOp → handleWatchEvent op timer = timeSecond) ∧
    (op = chmodOp → handleWatchEvent op timer = timer) ∧
    watchTimerFire t = [t] := by
  refine ⟨fun h => ?_, fun h => ?_, rfl⟩
  · simp [handleWatchEvent, h]
  · simp [handleWatchEvent, h]

/-- Closed instance of C8: a Write event (op=2) resets the freshly armed timer
to one second, and a Chmod event (op=16) leaves it unchanged. -/
theorem handleWatchEvent_debounce_witness :
    handleWatchEvent 2 watchTimerInit = timeSecond ∧
    handleWatchEvent chmodOp watchTimerInit = watchTimerInit :=
  ⟨(handleWatchEvent_debounce exSkipTask 2 watchTimerInit).1 (by decide),
   (handleWatchEvent_debounce exSkipTask chmodOp watchTimerInit).2.1 rfl⟩

theorem lookup_initStatuses_isSome (tasks : Tasks) (t : Task) (ht : t ∈ tasks) :
    ((initStatuses tasks).lookup t.name).isSome = true := by
  induction tasks with
  | nil => cases ht
  | cons hd tl ih =>
    by_cases h : t.name == hd.name
    · simp [initStatuses, List.lookup, h]
    · rcases List.mem_cons.mp ht with rfl | htl
      · simp at h
      · have := ih htl
        simpa [initStatuses, List.lookup, h] using this

/-- The ways a task can be delivered on the work channel: seeded as a leaf of
the effective graph (main.go:199-204), released as a fulfilled downstream by
`maybeStartDownstream` (main.go:217-237), or re-enqueued by the watch
goroutine of an already-delivered task (main.go:319-321). -/
inductive Delivered (tasks : Tasks) : Task → Prop where
  | leaf (t : Task) : t ∈ Tasks.GetLeaves tasks → Delivered tasks t
  | released (t : Task) (statuses : StatusMap) (rootCancelled : Bool) (name : String) :
      t ∈ maybeStartDownstream tasks statuses rootCancelled name → Delivered tasks t
  | rewatch (t : Task) : Delivered tasks t → Delivered tasks t

/-- C10: every task delivered on the work channel — seeded as a leaf, released
as a downstream, or re-enqueued by a watcher — belongs to the effective graph,
so the status record stored at initialization exists and the dispatch loop's
lookup succeeds. -/
theorem delivered_has_status (tasks : Tasks) (t : Task) (hd : Delivered tasks t) :
    t ∈ tasks ∧ ((initStatuses tasks).lookup t.name).isSome = true := by
  have hmem : t ∈ tasks := by
    induction hd with
    | leaf ht => exact List.mem_of_mem_filter ht
    | released statuses rootCancelled name ht =>
      cases rootCancelled with
      | true => simp [maybeStartDownstream] at ht
      | false =>
        have h1 := by
          simp only [maybeStartDownstream, Bool.false_eq_true, if_false] at ht
          exact List.mem_of_mem_filter ht
        exact List.mem_of_mem_filter h1
    | rewatch _ ih => exact ih
  exact ⟨hmem, lookup_initStatuses_isSome tasks t hmem⟩

/-- Example leaf task: a background database service with no dependencies. -/
def exLeafTask : Task :=
  Task.mk "db" [] [] "" "" RestartPolicy.always TaskType.service false false

/-- Example downstream task depending on the database service. -/
def exDepTask : Task :=
  Task.mk "migrate" ["db"] [] "" "" RestartPolicy.never TaskType.job false false

/-- Example two-task graph: `migrate` depends on the `db` service. -/
def exGraphC10 : Tasks := [exLeafTask, exDepTask]

/-- Example status table in which the database service is running. -/
def exStatusesC10 : StatusMap := [("db", taskStatus.mk "running" defaultBackoff)]

/-- Closed instance of C10: the leaf `db` of the concrete graph is in the
graph and its initial status record exists. -/
theorem delivered_has_status_witness :
    exLeafTask ∈ exGraphC10 ∧
    ((initStatuses exGraphC10).lookup exLeafTask.name).isSome = true :=
  delivered_has_status exGraphC10 exLeafTask (Delivered.leaf exLeafTask (by decide))

/-- Closed instance of C1 at the concrete graph: `migrate` sits downstream of
`db`, and the release condition is the stated one. -/
theorem maybeStartDownstream_enqueues_iff_witness :
    exDepTask ∈ maybeStartDownstream exGraphC10 exStatusesC10 false "db" ↔
      ∀ u ∈ exDepTask.dependencies, ∃ st, exStatusesC10.lookup u = some st ∧
        (st.reason = "success" ∨
          (st.reason = "running" ∧
            ∃ ut, Tasks.Get exGraphC10 u = some ut ∧ ut.IsBackground = true)) :=
  maybeStartDownstream_enqueues_iff exGraphC10 exStatusesC10 "db" exDepTask (by decide)

end Kit
